import Mathlib

/-!
Verification of the basketball registration scraper
(`src/app/lib/basketball-scraper.ts`).

The development shallowly embeds the scraper's data model and its
scrape/save/notify pipeline as pure Lean functions over an explicit
environment record that supplies the outcomes of the external effects
(browser steps, blob storage, mail channel, clock).  Each run produces a
result (`Except ScrapeErr Unit`, the promise resolution of `scrape()`)
together with a trace of observable events (blob writes, screenshot,
notifier invocations, mail-send attempts, browser close).
-/

set_option maxRecDepth 10000

/-- One availability row extracted from the municipal form
(interface `BasketballRegistration` in the source). -/
structure BasketballRegistration where
  polideportivo : String
  categoria : String
  actividad : String
  subcategoria : String
  horario : String
deriving DecidableEq, Repr

/-- The persisted snapshot (interface `RegistrationData` in the source). -/
structure RegistrationData where
  timestamp : String
  registrations : List BasketballRegistration
deriving DecidableEq, Repr

/-- Fixed logical name of the persisted snapshot (`BLOB_FILENAME`). -/
def BLOB_FILENAME : String := "basketball-registrations.json"

/-- Scheduler interval in hours (`SCRAPE_INTERVAL_HOURS`). -/
def SCRAPE_INTERVAL_HOURS : Nat := 6

/-- A result-table row, as the list of the text contents of its `td` cells
(the argument of `row.querySelectorAll` in the extraction callback). -/
abbrev Row := List String

/-- One cell read of the extraction callback:
`cols[i]?.textContent?.trim() || ''` — the trimmed cell text, with the
empty string substituted when the cell at that index is missing. -/
def cellText (row : Row) (i : Nat) : String :=
  match row.get? i with
  | some s => s.trim
  | none => ""

/-- The per-row mapping of the extraction callback: five fixed-position
cells (indices 1 through 5) become the five registration fields. -/
def rowToRegistration (row : Row) : BasketballRegistration :=
  { polideportivo := cellText row 1
    categoria := cellText row 2
    actividad := cellText row 3
    subcategoria := cellText row 4
    horario := cellText row 5 }

/-- The extraction callback run by `page.evaluate`: the selector
`#MainContent_gvBuscarActXCat tr:not(:first-child)` drops the header row,
and every remaining row is mapped to one registration, in order. -/
def extractRows (table : List Row) : List BasketballRegistration :=
  (table.drop 1).map rowToRegistration

/-! ## JSON serialization of the snapshot

`saveData` persists `JSON.stringify(data, null, 2)`.  The renderer below
produces exactly that text (2-space indentation, JSON string escaping) and
the parser reads it back, so that the save/load round trip of C10 can be
stated at the level of the persisted bytes. -/

/-- Hexadecimal digit character, as used by the `\u00XX` escapes of
`JSON.stringify` for control characters. -/
def hexDigitChar (n : Nat) : Char :=
  if n < 10 then Char.ofNat (48 + n) else Char.ofNat (97 + (n - 10))

/-- JSON string escaping of one character, following `JSON.stringify`:
quote, backslash and the named control escapes get two-character escapes,
remaining control characters get `\u00XX`, and everything else is kept. -/
def escapeChar (c : Char) : List Char :=
  if c = '"' then ['\\', '"']
  else if c = '\\' then ['\\', '\\']
  else if c = '\n' then ['\\', 'n']
  else if c = '\r' then ['\\', 'r']
  else if c = '\t' then ['\\', 't']
  else if c = Char.ofNat 8 then ['\\', 'b']
  else if c = Char.ofNat 12 then ['\\', 'f']
  else if c.toNat < 32 then
    ['\\', 'u', '0', '0', hexDigitChar (c.toNat / 16), hexDigitChar (c.toNat % 16)]
  else [c]

/-- JSON escaping of a character sequence. -/
def encodeChars (l : List Char) : List Char := l.flatMap escapeChar

/-- A JSON string literal: the escaped contents between double quotes. -/
def renderJsonString (s : String) : List Char :=
  '"' :: (encodeChars s.data ++ ['"'])

/-- Numeric value of a hexadecimal digit character. -/
def parseHexDigit (c : Char) : Option Nat :=
  if 48 ≤ c.toNat ∧ c.toNat ≤ 57 then some (c.toNat - 48)
  else if 97 ≤ c.toNat ∧ c.toNat ≤ 102 then some (c.toNat - 97 + 10)
  else if 65 ≤ c.toNat ∧ c.toNat ≤ 70 then some (c.toNat - 65 + 10)
  else none

/-- Parse the body of a JSON string literal up to its closing quote,
undoing the escapes of `escapeChar`; returns the decoded characters and
the rest of the input. -/
def parseStringBody : List Char → Option (List Char × List Char)
  | [] => none
  | c :: rest =>
    if c = '"' then some ([], rest)
    else if c = '\\' then
      match rest with
      | [] => none
      | e :: rest2 =>
        if e = '"' then (parseStringBody rest2).map (fun p => ('"' :: p.1, p.2))
        else if e = '\\' then (parseStringBody rest2).map (fun p => ('\\' :: p.1, p.2))
        else if e = 'n' then (parseStringBody rest2).map (fun p => ('\n' :: p.1, p.2))
        else if e = 'r' then (parseStringBody rest2).map (fun p => ('\r' :: p.1, p.2))
        else if e = 't' then (parseStringBody rest2).map (fun p => ('\t' :: p.1, p.2))
        else if e = 'b' then (parseStringBody rest2).map (fun p => (Char.ofNat 8 :: p.1, p.2))
        else if e = 'f' then (parseStringBody rest2).map (fun p => (Char.ofNat 12 :: p.1, p.2))
        else if e = 'u' then
          match rest2 with
          | h1 :: h2 :: h3 :: h4 :: rest3 =>
            match parseHexDigit h1, parseHexDigit h2, parseHexDigit h3, parseHexDigit h4 with
            | some a, some b, some c2, some d =>
              (parseStringBody rest3).map
                (fun p => (Char.ofNat (((a * 16 + b) * 16 + c2) * 16 + d) :: p.1, p.2))
            | _, _, _, _ => none
          | _ => none
        else none
    else (parseStringBody rest).map (fun p => (c :: p.1, p.2))

/-- Parse a complete JSON string literal (both quotes). -/
def parseJsonStringLit (input : List Char) : Option (String × List Char) :=
  match input with
  | [] => none
  | c :: rest =>
    if c = '"' then (parseStringBody rest).map (fun p => (String.mk p.1, p.2))
    else none

/-- Expect the given literal characters at the head of the input. -/
def expectLit : List Char → List Char → Option (List Char)
  | [], input => some input
  | c :: cs, input =>
    match input with
    | [] => none
    | d :: ds => if d = c then expectLit cs ds else none

/-- Layout token: top-level object opening up to the timestamp value. -/
def topOpenTok : List Char := ("\x7b\n  \"timestamp\": ").data

/-- Layout token: between the timestamp value and the registrations value. -/
def midTok : List Char := (",\n  \"registrations\": ").data

/-- Layout token: the rendering of an empty registrations array. -/
def emptyArrTok : List Char := ("[]").data

/-- Layout token: opening of a non-empty registrations array. -/
def arrOpenTok : List Char := ("[\n").data

/-- Layout token: closing of a non-empty registrations array. -/
def arrCloseTok : List Char := ("\n  ]").data

/-- Layout token: item object opening up to the `polideportivo` value. -/
def itemOpenTok : List Char := ("    \x7b\n      \"polideportivo\": ").data

/-- Layout token: separator before the `categoria` value. -/
def sepCategoriaTok : List Char := (",\n      \"categoria\": ").data

/-- Layout token: separator before the `actividad` value. -/
def sepActividadTok : List Char := (",\n      \"actividad\": ").data

/-- Layout token: separator before the `subcategoria` value. -/
def sepSubcategoriaTok : List Char := (",\n      \"subcategoria\": ").data

/-- Layout token: separator before the `horario` value. -/
def sepHorarioTok : List Char := (",\n      \"horario\": ").data

/-- Layout token: item object closing. -/
def itemCloseTok : List Char := ("\n    \x7d").data

/-- Layout token: top-level object closing. -/
def topCloseTok : List Char := ("\n\x7d").data

/-- Rendering of one registration object inside the array, exactly as
`JSON.stringify(·, null, 2)` lays it out at depth 2. -/
def renderRegistration (r : BasketballRegistration) : List Char :=
  itemOpenTok ++ renderJsonString r.polideportivo ++
  sepCategoriaTok ++ renderJsonString r.categoria ++
  sepActividadTok ++ renderJsonString r.actividad ++
  sepSubcategoriaTok ++ renderJsonString r.subcategoria ++
  sepHorarioTok ++ renderJsonString r.horario ++ itemCloseTok

/-- Array items joined by `",\n"`. -/
def renderRegItems : List BasketballRegistration → List Char
  | [] => []
  | [r] => renderRegistration r
  | r :: rs => renderRegistration r ++ ',' :: '\n' :: renderRegItems rs

/-- Rendering of the registrations array value (`[]` when empty). -/
def renderRegistrationsField : List BasketballRegistration → List Char
  | [] => emptyArrTok
  | r :: rs => arrOpenTok ++ renderRegItems (r :: rs) ++ arrCloseTok

/-- The persisted snapshot text: `JSON.stringify(data, null, 2)` for
`data = { timestamp, registrations }`. -/
def renderRegistrationData (d : RegistrationData) : String :=
  String.mk (topOpenTok ++ renderJsonString d.timestamp ++ midTok ++
    renderRegistrationsField d.registrations ++ topCloseTok)

/-- Parse one registration object of the array. -/
def parseRegistrationItem (input : List Char) :
    Option (BasketballRegistration × List Char) :=
  match expectLit itemOpenTok input with
  | none => none
  | some i =>
    match parseJsonStringLit i with
    | none => none
    | some (p, i) =>
      match expectLit sepCategoriaTok i with
      | none => none
      | some i =>
        match parseJsonStringLit i with
        | none => none
        | some (c, i) =>
          match expectLit sepActividadTok i with
          | none => none
          | some i =>
            match parseJsonStringLit i with
            | none => none
            | some (a, i) =>
              match expectLit sepSubcategoriaTok i with
              | none => none
              | some i =>
                match parseJsonStringLit i with
                | none => none
                | some (sc, i) =>
                  match expectLit sepHorarioTok i with
                  | none => none
                  | some i =>
                    match parseJsonStringLit i with
                    | none => none
                    | some (h, i) =>
                      match expectLit itemCloseTok i with
                      | none => none
                      | some i =>
                        some ({ polideportivo := p, categoria := c,
                                actividad := a, subcategoria := sc,
                                horario := h }, i)

/-- Parse the comma-separated items of a non-empty registrations array;
the fuel bounds the number of items. -/
def parseRegItems : Nat → List Char → Option (List BasketballRegistration × List Char)
  | 0, _ => none
  | fuel + 1, input =>
    match parseRegistrationItem input with
    | none => none
    | some (r, i) =>
      if i.take 2 = [',', '\n'] then
        match parseRegItems fuel (i.drop 2) with
        | none => none
        | some (rs, j) => some (r :: rs, j)
      else
        some ([r], i)

/-- Parse the registrations array value. -/
def parseRegistrationsArr (input : List Char) :
    Option (List BasketballRegistration × List Char) :=
  if input.take 2 = emptyArrTok then some ([], input.drop 2)
  else
    match expectLit arrOpenTok input with
    | none => none
    | some i =>
      match parseRegItems (i.length + 1) i with
      | none => none
      | some (rs, j) =>
        match expectLit arrCloseTok j with
        | none => none
        | some k => some (rs, k)

/-- Parse the persisted snapshot document back into a `RegistrationData`. -/
def parseRegistrationData (s : String) : Option RegistrationData :=
  match expectLit topOpenTok s.data with
  | none => none
  | some i =>
    match parseJsonStringLit i with
    | none => none
    | some (ts, i) =>
      match expectLit midTok i with
      | none => none
      | some i =>
        match parseRegistrationsArr i with
        | none => none
        | some (rs, i) =>
          match expectLit topCloseTok i with
          | none => none
          | some i =>
            if i = [] then some { timestamp := ts, registrations := rs }
            else none

/-! ## The pipeline model

`scrape()` is embedded as a pure function of an environment record that
fixes the outcome of every external effect of one run: whether each
browser step succeeds, the contents of the results table, whether the
blob `put`s and the mail send succeed, the configured addresses, and the
clock readings.  The function returns the promise resolution of
`scrape()` together with the ordered trace of observable events. -/

/-- Target page URL (`URL` in the source). -/
def URL : String :=
  "https://appsb.mardelplata.gob.ar/Consultas/nPolideportivos/Vistas/Inscripciones/InscripcionWeb/InscripcionWeb.aspx"

/-- Errors that a run can raise, following the taxonomy of the spec:
extraction errors (navigation / timeout / element-not-found raised by a
browser step inside the `try` body), storage errors (blob backend), and
delivery errors (mail channel).  `launch` is the separate failure of
`puppeteer.launch`, which happens before the `try` body. -/
inductive ScrapeErr where
  | launch
  | extraction (step : String)
  | storage
  | delivery
deriving DecidableEq, Repr

/-- The outbound message handed to `sgMail.send` (`msg` in `sendEmail`);
`toAddr` and `fromAddr` embed the source's `to` and `from` fields, whose
names are reserved words in Lean. -/
structure EmailMsg where
  toAddr : String
  fromAddr : String
  subject : String
  html : String
deriving DecidableEq, Repr

/-- Observable events of one run, in order of occurrence. -/
inductive Event where
  | putBlob (name : String) (body : String)
  | screenshotTaken
  | notifyCall (registrations : List BasketballRegistration)
      (blobUrl : Option String)
  | sendAttempt (msg : EmailMsg)
  | browserClosed
deriving DecidableEq, Repr

/-- Environment of one pipeline run: configured addresses, the outcome of
each external step, the results table served by the page, and the clock
readings used by the templates. -/
structure ScrapeEnv where
  RECIPIENT_EMAIL : Option String
  FROM_EMAIL : Option String
  launchOk : Bool
  newPageOk : Bool
  gotoOk : Bool
  radioEvalOk : Bool
  selectCategoriaOk : Bool
  selectActividadOk : Bool
  searchOk : Bool
  resultsSelectorFound : Bool
  resultsTable : List Row
  savePutOk : Bool
  savedUrl : String
  screenshotOk : Bool
  screenshotPutOk : Bool
  screenshotData : String
  sendOk : Bool
  nowIso : String
  todayStr : String
deriving Repr

/-- The guard `!process.env.RECIPIENT_EMAIL || !process.env.FROM_EMAIL`
(an unset variable and an empty string are both falsy in JS). -/
def emailConfigMissing (env : ScrapeEnv) : Bool :=
  env.RECIPIENT_EMAIL.getD "" = "" || env.FROM_EMAIL.getD "" = ""

/-- One `<tr>` of the data email (the `tableRows` map body). -/
def tableRowHtml (item : BasketballRegistration) : String :=
  "\n      <tr style=\"border-bottom: 1px solid #e0e0e0;\">\n        <td style=\"padding: 12px; text-align: left;\">" ++ item.polideportivo ++
  "</td>\n        <td style=\"padding: 12px; text-align: left;\">" ++ item.categoria ++
  "</td>\n        <td style=\"padding: 12px; text-align: left;\">" ++ item.actividad ++
  "</td>\n        <td style=\"padding: 12px; text-align: left;\">" ++ item.subcategoria ++
  "</td>\n        <td style=\"padding: 12px; text-align: left;\">" ++ item.horario ++
  "</td>\n      </tr>\n    "

/-- The `htmlContent` template of the non-empty branch of `sendEmail`. -/
def dataHtmlContent (env : ScrapeEnv)
    (registrations : List BasketballRegistration)
    (blobUrl : Option String) : String :=
  "\n      <!DOCTYPE html>\n      <html lang=\"es\">\n      <head>\n        <meta charset=\"UTF-8\">\n        <meta name=\"viewport\" content=\"width=device-width, initial-scale=1.0\">\n        <title>Inscripciones Básquet</title>\n      </head>\n      <body style=\"font-family: \x27Arial\x27, sans-serif; margin: 0; padding: 20px; background-color: #f7f7f7;\">\n        <div style=\"max-width: 800px; margin: 0 auto; background-color: white; border-radius: 10px; box-shadow: 0 2px 10px rgba(0,0,0,0.1);\">\n          <!-- Header -->\n          <div style=\"background-color: #2c3e50; padding: 25px; border-radius: 10px 10px 0 0;\">\n            <h1 style=\"color: white; margin: 0; font-size: 24px; display: flex; align-items: center; gap: 10px;\">\n              🏀 Inscripciones Disponibles\n            </h1>\n          </div>\n\n          <!-- Content -->\n          <div style=\"padding: 25px;\">\n            <p style=\"color: #666; margin-bottom: 25px; font-size: 15px;\">\n              Se encontraron <strong>" ++
  toString registrations.length ++
  " inscripciones</strong> disponibles \n              para básquet. Fecha de consulta: " ++
  env.todayStr ++
  "\n            </p>\n\n            <!-- Table -->\n            <div style=\"overflow-x: auto;\">\n              <table style=\"width: 100%; border-collapse: collapse; margin-bottom: 25px;\">\n                <thead>\n                  <tr style=\"background-color: #f8f9fa; color: #2c3e50;\">\n                    <th style=\"padding: 15px; text-align: left; min-width: 150px;\">Polideportivo</th>\n                    <th style=\"padding: 15px; text-align: left;\">Categoría</th>\n                    <th style=\"padding: 15px; text-align: left;\">Actividad</th>\n                    <th style=\"padding: 15px; text-align: left;\">Subcategoría</th>\n                    <th style=\"padding: 15px; text-align: left;\">Horario</th>\n                  </tr>\n                </thead>\n                <tbody>\n                  " ++
  String.join (registrations.map tableRowHtml) ++
  "\n                </tbody>\n              </table>\n            </div>\n\n            <!-- Footer -->\n            <div style=\"border-top: 1px solid #eee; padding-top: 20px; color: #666; font-size: 14px;\">\n              <p style=\"margin: 5px 0;\">📅 Actualizado automáticamente cada " ++
  toString SCRAPE_INTERVAL_HOURS ++
  " horas</p>\n              <p style=\"margin: 5px 0;\">⚠️ Este es un mensaje automático, por favor no responder</p>\n              " ++
  (match blobUrl with
   | some u =>
     "<p style=\"margin: 5px 0;\">🔗 <a href=\"" ++ u ++
     "\">Ver datos en formato JSON</a></p>"
   | none => "") ++
  "\n            </div>\n          </div>\n        </div>\n      </body>\n      </html>\n    "

/-- The `htmlContent` template of the empty branch of `sendEmail`. -/
def emptyHtmlContent : String :=
  "\n      <div style=\"max-width: 600px; margin: 0 auto; padding: 30px; background-color: #fff3cd; border-radius: 8px; text-align: center;\">\n        <h2 style=\"color: #856404; margin-top: 0;\">⚠️ No hay inscripciones disponibles</h2>\n        <p style=\"color: #856404;\">No se encontraron inscripciones de básquet en este momento.</p>\n        <p style=\"color: #856404;\">Prueba nuevamente más tarde o verifica directamente en el sitio.</p>\n      </div>\n    "

/-- The `msg` object built by `sendEmail` (branching on
`registrations.length > 0` for both the body and the subject). -/
def buildEmailMsg (env : ScrapeEnv)
    (registrations : List BasketballRegistration)
    (blobUrl : Option String) : EmailMsg :=
  { toAddr := env.RECIPIENT_EMAIL.getD ""
    fromAddr := env.FROM_EMAIL.getD ""
    subject := "🏀 " ++
      (if registrations.length > 0 then "Nuevas Inscripciones Disponibles!"
       else "Sin inscripciones disponibles")
    html :=
      if registrations.length > 0 then dataHtmlContent env registrations blobUrl
      else emptyHtmlContent }

/-- `sendEmail(registrations, blobUrl?)`: a missing address configuration
returns early (no send attempted, nothing thrown); otherwise the message
is built and `sgMail.send` is attempted, whose rejection is rethrown. -/
def sendEmail (env : ScrapeEnv)
    (registrations : List BasketballRegistration)
    (blobUrl : Option String) : Except ScrapeErr Unit × List Event :=
  if emailConfigMissing env then
    (.ok (), [.notifyCall registrations blobUrl])
  else
    let msg := buildEmailMsg env registrations blobUrl
    if env.sendOk then
      (.ok (), [.notifyCall registrations blobUrl, .sendAttempt msg])
    else
      (.error .delivery, [.notifyCall registrations blobUrl, .sendAttempt msg])

/-- `saveData(registrations)`: a fresh timestamp is paired with the given
registrations, the document is `put` under `BLOB_FILENAME`, and the
resulting URL returned; a backend rejection is rethrown as a storage
error. -/
def saveData (env : ScrapeEnv)
    (registrations : List BasketballRegistration) :
    Except ScrapeErr String × List Event :=
  let data : RegistrationData :=
    { timestamp := env.nowIso, registrations := registrations }
  if env.savePutOk then
    (.ok env.savedUrl, [.putBlob BLOB_FILENAME (renderRegistrationData data)])
  else
    (.error .storage, [])

/-- The `try` body of `scrape()`: page acquisition, the five interaction
steps, the bounded wait for the results selector (which rejects on
timeout), extraction, then persist and notify. -/
def tryBody (env : ScrapeEnv) : Except ScrapeErr Unit × List Event :=
  if !env.newPageOk then (.error (.extraction "newPage"), [])
  else if !env.gotoOk then (.error (.extraction "goto"), [])
  else if !env.radioEvalOk then (.error (.extraction "evaluate"), [])
  else if !env.selectCategoriaOk then (.error (.extraction "selectCategoria"), [])
  else if !env.selectActividadOk then (.error (.extraction "selectActividad"), [])
  else if !env.searchOk then (.error (.extraction "searchNavigation"), [])
  else if !env.resultsSelectorFound then
    (.error (.extraction "waitForSelector"), [])
  else
    let registrations := extractRows env.resultsTable
    match saveData env registrations with
    | (.error e, evs) => (.error e, evs)
    | (.ok blobUrl, evs) =>
      let send := sendEmail env registrations (some blobUrl)
      (send.1, evs ++ send.2)

/-- The `catch` block of `scrape()`: if the page was acquired, a
best-effort screenshot capture (its own failures swallowed) followed by
`sendEmail([])`; the original error is not rethrown, so the block's
result is that of `sendEmail([])`. -/
def catchHandler (env : ScrapeEnv) : Except ScrapeErr Unit × List Event :=
  if env.newPageOk then
    let captureEvents :=
      if env.screenshotOk then
        if env.screenshotPutOk then
          [Event.screenshotTaken,
           Event.putBlob "error-screenshot.png" env.screenshotData]
        else [Event.screenshotTaken]
      else []
    let send := sendEmail env [] none
    (send.1, captureEvents ++ send.2)
  else
    (.ok (), [])

/-- `scrape()`: launch the browser (a launch rejection escapes before the
`try`), run the body, on any body error run the `catch` block, and close
the browser in the `finally` on every path that opened it. -/
def scrape (env : ScrapeEnv) : Except ScrapeErr Unit × List Event :=
  if !env.launchOk then (.error .launch, [])
  else
    match tryBody env with
    | (.ok _, evs) => (.ok (), evs ++ [.browserClosed])
    | (.error _, evs) =>
      let handled := catchHandler env
      (handled.1, evs ++ handled.2 ++ [.browserClosed])

/-- `start()`: one awaited run (whose rejection aborts `start` before the
interval is installed), then `setInterval` fires a run every tick
regardless of the outcomes of previous runs.  `envs i` is the environment
of the i-th run and `ticks` the number of interval ticks observed. -/
def start (envs : Nat → ScrapeEnv) (ticks : Nat) :
    List (Except ScrapeErr Unit × List Event) :=
  match (scrape (envs 0)).1 with
  | .error _ => [scrape (envs 0)]
  | .ok _ =>
    scrape (envs 0) :: (List.range ticks).map (fun i => scrape (envs (i + 1)))

/-- The messages handed to the delivery channel, in order. -/
def sentMessages (evs : List Event) : List EmailMsg :=
  evs.filterMap fun e =>
    match e with
    | .sendAttempt m => some m
    | _ => none

/-- The argument lists of the Notifier invocations, in order. -/
def notifiedSets (evs : List Event) :
    List (List BasketballRegistration × Option String) :=
  evs.filterMap fun e =>
    match e with
    | .notifyCall r u => some (r, u)
    | _ => none

/-- The bodies written under the snapshot's fixed logical name, in order. -/
def dataPuts (evs : List Event) : List String :=
  evs.filterMap fun e =>
    match e with
    | .putBlob n b => if n = BLOB_FILENAME then some b else none
    | _ => none

/-- Whether a run result is a raised extraction error. -/
def isExtractionFailure : Except ScrapeErr Unit → Bool
  | .error (.extraction _) => true
  | _ => false

/-- Whether a run result is a resolution (no raised error). -/
def resultOk : Except ScrapeErr Unit → Bool
  | .ok _ => true
  | .error _ => false

/-- Number of browser-close events in a trace. -/
def closeCount (evs : List Event) : Nat :=
  evs.countP (fun e => e = Event.browserClosed)

/-- An environment in which every external effect succeeds and the page
serves a header row plus one data row. -/
def goodEnv : ScrapeEnv :=
  { RECIPIENT_EMAIL := some "destino@example.com"
    FROM_EMAIL := some "origen@example.com"
    launchOk := true
    newPageOk := true
    gotoOk := true
    radioEvalOk := true
    selectCategoriaOk := true
    selectActividadOk := true
    searchOk := true
    resultsSelectorFound := true
    resultsTable :=
      [["", "Polideportivo", "Categoria", "Actividad", "Subcategoria", "Horario"],
       ["1", "Colinas de Peralta Ramos", "DEPORTE", "BASQUET", "Sub 14",
        "Lunes 18:00"]]
    savePutOk := true
    savedUrl := "https://blob.example/basketball-registrations.json"
    screenshotOk := true
    screenshotPutOk := true
    screenshotData := "captura"
    sendOk := true
    nowIso := "2024-05-01T12:00:00.000Z"
    todayStr := "1/5/2024" }

/-- A run whose extraction succeeds with zero data rows (header only). -/
def envZeroRows : ScrapeEnv :=
  { goodEnv with resultsTable :=
      [["", "Polideportivo", "Categoria", "Actividad", "Subcategoria",
        "Horario"]] }

/-- A run whose navigation step fails. -/
def envGotoFail : ScrapeEnv := { goodEnv with gotoOk := false }

/-- A run in which the results selector never appears within its timeout. -/
def envNoResultsTable : ScrapeEnv :=
  { goodEnv with resultsSelectorFound := false }

/-- Whether one of the browser interaction steps of the `try` body (after
page acquisition) fails. -/
def extractionStepFails (env : ScrapeEnv) : Bool :=
  !env.gotoOk || !env.radioEvalOk || !env.selectCategoriaOk ||
  !env.selectActividadOk || !env.searchOk || !env.resultsSelectorFound

/-- Whether the diagnostic capture (taking or persisting the screenshot)
fails. -/
def captureFails (env : ScrapeEnv) : Bool :=
  !env.screenshotOk || !env.screenshotPutOk

/-! ## Theorems -/

theorem cellText_eq (row : Row) (i : Nat) :
    cellText row i = ((row.get? i).map String.trim).getD "" := by
  unfold cellText
  cases row.get? i <;> rfl

/-- C3: for every successful extraction the Extractor emits exactly one
Registration per non-header row, in source row order; each field is the
whitespace-trimmed content of a fixed-position cell (indices 1–5) with the
empty string substituted for a missing cell, and the emitted length equals
the number of non-header rows. -/
theorem extract_one_registration_per_row (table : List Row) :
    (extractRows table).length = table.length - 1 ∧
    ∀ i : Nat,
      (extractRows table).get? i =
        (table.get? (i + 1)).map (fun row =>
          { polideportivo := ((row.get? 1).map String.trim).getD ""
            categoria := ((row.get? 2).map String.trim).getD ""
            actividad := ((row.get? 3).map String.trim).getD ""
            subcategoria := ((row.get? 4).map String.trim).getD ""
            horario := ((row.get? 5).map String.trim).getD "" }) := by
  constructor
  · simp [extractRows]
  · intro i
    simp only [extractRows, List.get?_eq_getElem?, List.getElem?_map,
      List.getElem?_drop]
    have harg : 1 + i = i + 1 := Nat.add_comm 1 i
    rw [harg]
    cases h : table[i + 1]? with
    | none => rfl
    | some row =>
      simp [rowToRegistration, cellText_eq]

/-! ## Round-trip lemmas for the snapshot serialization -/

theorem expectLit_append (tok rest : List Char) :
    expectLit tok (tok ++ rest) = some rest := by
  induction tok with
  | nil => rfl
  | cons c cs ih => simp [expectLit, ih]

theorem parseHexDigit_hexDigitChar : ∀ n : Nat, n < 16 →
    parseHexDigit (hexDigitChar n) = some n := by
  decide

theorem parseStringBody_escapeChar (c : Char) (tail : List Char) :
    parseStringBody (escapeChar c ++ tail) =
      (parseStringBody tail).map (fun p => (c :: p.1, p.2)) := by
  by_cases h1 : c = '"'
  · subst h1; simp only [escapeChar, if_pos rfl, List.cons_append,
      List.nil_append]
    rw [parseStringBody.eq_def]; simp
  by_cases h2 : c = '\\'
  · subst h2; simp only [escapeChar, h1, if_pos rfl, if_neg, if_false,
      ite_false, List.cons_append, List.nil_append]
    rw [parseStringBody.eq_def]; simp
  by_cases h3 : c = '\n'
  · subst h3; simp only [escapeChar]
    norm_num
    rw [parseStringBody.eq_def]; simp
  by_cases h4 : c = '\r'
  · subst h4; simp only [escapeChar]
    norm_num
    rw [parseStringBody.eq_def]; simp
  by_cases h5 : c = '\t'
  · subst h5; simp only [escapeChar]
    norm_num
    rw [parseStringBody.eq_def]; simp
  by_cases h6 : c = Char.ofNat 8
  · subst h6; simp only [escapeChar]
    norm_num
    rw [parseStringBody.eq_def]; simp
  by_cases h7 : c = Char.ofNat 12
  · subst h7; simp only [escapeChar]
    norm_num
    rw [parseStringBody.eq_def]; simp
  by_cases h8 : c.toNat < 32
  · have hhi : c.toNat / 16 < 16 := by omega
    have hlo : c.toNat % 16 < 16 := by omega
    simp only [escapeChar, h1, h2, h3, h4, h5, h6, h7, h8, if_true, ite_true,
      ite_false, if_false, List.cons_append, List.nil_append]
    rw [parseStringBody.eq_def]
    simp [parseHexDigit_hexDigitChar _ hhi, parseHexDigit_hexDigitChar _ hlo]
    have h0 : parseHexDigit '0' = some 0 := by decide
    rw [h0]
    have hv : c.toNat / 16 * 16 + c.toNat % 16 = c.toNat := by omega
    simp [hv]
  · have hec : escapeChar c = [c] := by
      rw [escapeChar, if_neg h1, if_neg h2, if_neg h3, if_neg h4, if_neg h5,
        if_neg h6, if_neg h7, if_neg h8]
    rw [hec, List.cons_append, List.nil_append, parseStringBody.eq_def]
    simp [h1, h2]

theorem parseStringBody_encodeChars (l : List Char) (rest : List Char) :
    parseStringBody (encodeChars l ++ '"' :: rest) = some (l, rest) := by
  induction l with
  | nil =>
    show parseStringBody ('"' :: rest) = some ([], rest)
    rw [parseStringBody.eq_def]; simp
  | cons c cs ih =>
    simp only [encodeChars, List.flatMap_cons, List.append_assoc]
    rw [show (cs.flatMap escapeChar) = encodeChars cs from rfl]
    rw [parseStringBody_escapeChar, ih]
    rfl

theorem parseJsonStringLit_append (s : String) (rest : List Char) :
    parseJsonStringLit (renderJsonString s ++ rest) = some (s, rest) := by
  show parseJsonStringLit ('"' :: (encodeChars s.data ++ ['"']) ++ rest)
      = some (s, rest)
  rw [List.cons_append, List.append_assoc, List.singleton_append]
  rw [parseJsonStringLit.eq_def]
  simp [parseStringBody_encodeChars]

theorem parseRegistrationItem_append (r : BasketballRegistration)
    (rest : List Char) :
    parseRegistrationItem (renderRegistration r ++ rest) = some (r, rest) := by
  simp only [renderRegistration, List.append_assoc]
  simp [parseRegistrationItem, expectLit_append, parseJsonStringLit_append]

theorem renderRegistration_length_pos (r : BasketballRegistration) :
    1 ≤ (renderRegistration r).length := by
  simp [renderRegistration, itemOpenTok]

theorem renderRegItems_length (regs : List BasketballRegistration) :
    regs.length ≤ (renderRegItems regs).length := by
  induction regs with
  | nil => simp [renderRegItems]
  | cons r rs ih =>
    cases rs with
    | nil => simpa [renderRegItems] using renderRegistration_length_pos r
    | cons r2 rs2 =>
      rw [renderRegItems]
      have h1 := renderRegistration_length_pos r
      simp only [List.length_cons] at ih ⊢
      simp only [List.length_append, List.length_cons]
      omega
      simp

theorem parseRegItems_render (regs : List BasketballRegistration)
    (r : BasketballRegistration) (fuel : Nat) (tail : List Char)
    (hfuel : regs.length < fuel) :
    parseRegItems fuel (renderRegItems (r :: regs) ++ '\n' :: tail)
      = some (r :: regs, '\n' :: tail) := by
  induction regs generalizing r fuel tail with
  | nil =>
    cases fuel with
    | zero => omega
    | succ f =>
      rw [show renderRegItems [r] = renderRegistration r from rfl]
      rw [parseRegItems, parseRegistrationItem_append]
      cases tail <;> simp
  | cons r2 rs ih =>
    cases fuel with
    | zero => omega
    | succ f =>
      rw [show renderRegItems (r :: r2 :: rs)
        = renderRegistration r ++ ',' :: '\n' :: renderRegItems (r2 :: rs)
        from rfl]
      rw [List.append_assoc, List.cons_append, List.cons_append]
      rw [parseRegItems, parseRegistrationItem_append]
      have hih := ih r2 f tail
        (by simp only [List.length_cons] at hfuel; omega)
      simp [hih]

theorem parseRegistrationsArr_render (regs : List BasketballRegistration)
    (rest : List Char) :
    parseRegistrationsArr (renderRegistrationsField regs ++ rest)
      = some (regs, rest) := by
  cases regs with
  | nil =>
    have h : renderRegistrationsField [] ++ rest = '[' :: ']' :: rest := rfl
    rw [h, parseRegistrationsArr.eq_def]
    simp [emptyArrTok]
  | cons r rs =>
    have hshape : renderRegistrationsField (r :: rs) ++ rest
        = '[' :: '\n' ::
          (renderRegItems (r :: rs) ++ '\n' :: ' ' :: ' ' :: ']' :: rest) := by
      rw [show renderRegistrationsField (r :: rs)
        = arrOpenTok ++ renderRegItems (r :: rs) ++ arrCloseTok from rfl]
      simp [arrOpenTok, arrCloseTok]
    rw [hshape, parseRegistrationsArr.eq_def]
    rw [if_neg (by simp [emptyArrTok])]
    have hopen : expectLit arrOpenTok
        ('[' :: '\n' ::
          (renderRegItems (r :: rs) ++ '\n' :: ' ' :: ' ' :: ']' :: rest))
        = some (renderRegItems (r :: rs) ++ '\n' :: ' ' :: ' ' :: ']' :: rest) :=
      expectLit_append arrOpenTok _
    rw [hopen]
    have hfuel : rs.length
        < (renderRegItems (r :: rs) ++ '\n' :: ' ' :: ' ' :: ']' :: rest).length
          + 1 := by
      have hlb := renderRegItems_length (r :: rs)
      simp only [List.length_cons, List.length_append] at hlb ⊢
      omega
    have hitems := parseRegItems_render rs r
      ((renderRegItems (r :: rs) ++ '\n' :: ' ' :: ' ' :: ']' :: rest).length + 1)
      (' ' :: ' ' :: ']' :: rest) hfuel
    have hclose : expectLit arrCloseTok ('\n' :: ' ' :: ' ' :: ']' :: rest)
        = some rest := expectLit_append arrCloseTok rest
    simp only [List.length_append, List.length_cons] at hitems
    simp [hitems, hclose]

theorem data_mk_eq (l : List Char) : (String.mk l).data = l := rfl

theorem parse_renderRegistrationData (d : RegistrationData) :
    parseRegistrationData (renderRegistrationData d) = some d := by
  have hdata : (renderRegistrationData d).data
      = topOpenTok ++ (renderJsonString d.timestamp ++ (midTok ++
        (renderRegistrationsField d.registrations ++ topCloseTok))) := by
    rw [renderRegistrationData, data_mk_eq]
    simp [List.append_assoc]
  have harr := parseRegistrationsArr_render d.registrations topCloseTok
  have hcl : expectLit topCloseTok topCloseTok = some [] := by
    have h := expectLit_append topCloseTok []
    simpa using h
  rw [parseRegistrationData.eq_def, hdata]
  simp only [expectLit_append, parseJsonStringLit_append, harr, hcl]
  simp

/-! ## Shared lemmas and concrete environments -/

theorem closeCount_append (a b : List Event) :
    closeCount (a ++ b) = closeCount a + closeCount b :=
  List.countP_append _ _ _

theorem closeCount_sendEmail (env : ScrapeEnv)
    (r : List BasketballRegistration) (b : Option String) :
    closeCount (sendEmail env r b).2 = 0 := by
  by_cases hcm : emailConfigMissing env
  · simp [sendEmail, hcm, closeCount]
  · by_cases hsk : env.sendOk <;> simp [sendEmail, hcm, hsk, closeCount]

theorem closeCount_saveData (env : ScrapeEnv)
    (r : List BasketballRegistration) :
    closeCount (saveData env r).2 = 0 := by
  by_cases hsv : env.savePutOk <;> simp [saveData, hsv, closeCount]

theorem closeCount_tryBody (env : ScrapeEnv) :
    closeCount (tryBody env).2 = 0 := by
  rw [tryBody.eq_def]
  split_ifs <;> try rfl
  rcases hsd : saveData env (extractRows env.resultsTable) with ⟨res, evs⟩
  have h1 := closeCount_saveData env (extractRows env.resultsTable)
  rw [hsd] at h1
  cases res with
  | error e =>
    simp only [hsd]
    simpa using h1
  | ok url =>
    have h2 := closeCount_sendEmail env (extractRows env.resultsTable) (some url)
    simp only [hsd]
    simp only [closeCount_append]
    simp at h1
    simp [h1, h2]

theorem closeCount_catchHandler (env : ScrapeEnv) :
    closeCount (catchHandler env).2 = 0 := by
  by_cases hp : env.newPageOk
  · by_cases hso : env.screenshotOk <;> by_cases hsp : env.screenshotPutOk <;>
      by_cases hcm : emailConfigMissing env <;> by_cases hsk : env.sendOk <;>
      simp [catchHandler, sendEmail, closeCount, hp, hso, hsp, hcm, hsk]
  · simp [catchHandler, hp, closeCount]

theorem sendEmail_not_extraction (env : ScrapeEnv)
    (r : List BasketballRegistration) (b : Option String) :
    isExtractionFailure (sendEmail env r b).1 = false := by
  by_cases hcm : emailConfigMissing env
  · simp [sendEmail, hcm, isExtractionFailure]
  · by_cases hsk : env.sendOk <;>
      simp [sendEmail, hcm, hsk, isExtractionFailure]

theorem mem_notifiedSets {evs : List Event}
    {r : List BasketballRegistration} {b : Option String}
    (h : Event.notifyCall r b ∈ evs) : (r, b) ∈ notifiedSets evs := by
  simp only [notifiedSets, List.mem_filterMap]
  exact ⟨Event.notifyCall r b, h, rfl⟩

/-! ## Claims -/

/-- C10: `saveData` writes, under the single fixed logical name
`BLOB_FILENAME`, the document `{ timestamp, registrations }` whose
registrations are exactly the given sequence and whose timestamp is the
clock reading taken at save time, and returns the storage URL; parsing
the persisted bytes recovers the given registrations (and timestamp)
unchanged. -/
theorem saveData_writes_and_roundTrips (env : ScrapeEnv)
    (regs : List BasketballRegistration) (h : env.savePutOk = true) :
    (saveData env regs).1 = .ok env.savedUrl ∧
    (saveData env regs).2 =
      [.putBlob BLOB_FILENAME
        (renderRegistrationData
          { timestamp := env.nowIso, registrations := regs })] ∧
    parseRegistrationData
        (renderRegistrationData
          { timestamp := env.nowIso, registrations := regs })
      = some { timestamp := env.nowIso, registrations := regs } := by
  refine ⟨?_, ?_, parse_renderRegistrationData _⟩ <;> simp [saveData, h]

/-- Witness for C10 at a concrete environment and registration list. -/
theorem saveData_writes_and_roundTrips_witness :
    (saveData goodEnv
        [{ polideportivo := "Colinas de Peralta Ramos", categoria := "DEPORTE",
           actividad := "BASQUET", subcategoria := "Sub 14",
           horario := "Lunes 18:00" }]).1 = .ok goodEnv.savedUrl ∧
    (saveData goodEnv
        [{ polideportivo := "Colinas de Peralta Ramos", categoria := "DEPORTE",
           actividad := "BASQUET", subcategoria := "Sub 14",
           horario := "Lunes 18:00" }]).2 =
      [.putBlob BLOB_FILENAME
        (renderRegistrationData
          { timestamp := goodEnv.nowIso,
            registrations :=
              [{ polideportivo := "Colinas de Peralta Ramos",
                 categoria := "DEPORTE", actividad := "BASQUET",
                 subcategoria := "Sub 14", horario := "Lunes 18:00" }] })] ∧
    parseRegistrationData
        (renderRegistrationData
          { timestamp := goodEnv.nowIso,
            registrations :=
              [{ polideportivo := "Colinas de Peralta Ramos",
                 categoria := "DEPORTE", actividad := "BASQUET",
                 subcategoria := "Sub 14", horario := "Lunes 18:00" }] })
      = some { timestamp := goodEnv.nowIso,
               registrations :=
                 [{ polideportivo := "Colinas de Peralta Ramos",
                    categoria := "DEPORTE", actividad := "BASQUET",
                    subcategoria := "Sub 14", horario := "Lunes 18:00" }] } :=
  saveData_writes_and_roundTrips goodEnv
    [{ polideportivo := "Colinas de Peralta Ramos", categoria := "DEPORTE",
       actividad := "BASQUET", subcategoria := "Sub 14",
       horario := "Lunes 18:00" }] rfl

/-- C7: a missing recipient or sender address makes `sendEmail` return
early: it raises no exception and records no delivery attempt, for every
registration list passed to it. -/
theorem sendEmail_missing_config_short_circuits (env : ScrapeEnv)
    (regs : List BasketballRegistration) (blobUrl : Option String)
    (h : emailConfigMissing env = true) :
    sendEmail env regs blobUrl = (.ok (), [.notifyCall regs blobUrl]) := by
  simp [sendEmail, h]

/-- Witness for C7 with the recipient address unset. -/
theorem sendEmail_missing_config_short_circuits_witness :
    sendEmail { goodEnv with RECIPIENT_EMAIL := none }
        (extractRows goodEnv.resultsTable) none
      = (.ok (), [.notifyCall (extractRows goodEnv.resultsTable) none]) :=
  sendEmail_missing_config_short_circuits _ _ none (by decide)

/-- C1 counterexample: a concrete run whose extraction succeeds with zero
registrations and a concrete run whose extraction fails dispatch equal
rendered messages — the Notifier's output does not distinguish them. -/
theorem zero_results_and_failure_messages_equal :
    sentMessages (scrape envZeroRows).2 = sentMessages (scrape envGotoFail).2 ∧
    (sentMessages (scrape envZeroRows).2).length = 1 :=
  ⟨by decide, rfl⟩

/-- C1 (amended): both runs pass the empty registration sequence to the
Notifier, and the Notifier renders the identical "no results" message for
both — the rendered message for an empty set does not depend on the
snapshot reference, so a zero-result success and a failure are not
distinguishable in its output. -/
theorem empty_render_independent_of_reference (env : ScrapeEnv) (u : String) :
    buildEmailMsg env [] (some u) = buildEmailMsg env [] none := by
  simp [buildEmailMsg]

/-- C2 counterexample: when the results selector never appears within its
timeout, the wait rejects: no snapshot is persisted (contradicting the
claimed persist of an empty snapshot), the body fails with an extraction
error, and the run takes the failure branch. -/
theorem timeout_run_persists_nothing :
    dataPuts (scrape envNoResultsTable).2 = [] ∧
    isExtractionFailure (tryBody envNoResultsTable).1 = true ∧
    notifiedSets (scrape envNoResultsTable).2 = [([], none)] :=
  ⟨rfl, rfl, rfl⟩

/-- C2 (amended): if the results-table element does not appear within its
timeout, `waitForSelector` rejects and extraction fails: no snapshot is
persisted, and the run takes the failure branch, notifying with the empty
set. -/
theorem timeout_takes_failure_branch (env : ScrapeEnv)
    (hl : env.launchOk = true) (hp : env.newPageOk = true)
    (hg : env.gotoOk = true) (hr : env.radioEvalOk = true)
    (hc : env.selectCategoriaOk = true) (ha : env.selectActividadOk = true)
    (hs : env.searchOk = true) (hw : env.resultsSelectorFound = false) :
    isExtractionFailure (tryBody env).1 = true ∧
    dataPuts (scrape env).2 = [] ∧
    notifiedSets (scrape env).2 = [([], none)] := by
  cases hso : env.screenshotOk <;> cases hsp : env.screenshotPutOk <;>
    cases hcm : emailConfigMissing env <;> cases hsk : env.sendOk <;>
    simp [scrape, tryBody, catchHandler, sendEmail, saveData, dataPuts,
      notifiedSets, isExtractionFailure, BLOB_FILENAME, hl, hp, hg, hr, hc,
      ha, hs, hw, hso, hsp, hcm, hsk]

/-- Witness for C2 (amended) at a concrete environment. -/
theorem timeout_takes_failure_branch_witness :
    isExtractionFailure (tryBody envNoResultsTable).1 = true ∧
    dataPuts (scrape envNoResultsTable).2 = [] ∧
    notifiedSets (scrape envNoResultsTable).2 = [([], none)] :=
  timeout_takes_failure_branch envNoResultsTable rfl rfl rfl rfl rfl rfl rfl
    rfl

/-- C4: a storage failure in the persist step after a successful
extraction aborts the data notification: the run's only notifier
invocation passes the empty set, and no invocation carries the extracted
registrations together with a snapshot reference. -/
theorem storage_failure_aborts_data_notification (env : ScrapeEnv)
    (hl : env.launchOk = true) (hp : env.newPageOk = true)
    (hg : env.gotoOk = true) (hr : env.radioEvalOk = true)
    (hc : env.selectCategoriaOk = true) (ha : env.selectActividadOk = true)
    (hs : env.searchOk = true) (hw : env.resultsSelectorFound = true)
    (hsv : env.savePutOk = false) :
    notifiedSets (scrape env).2 = [([], none)] ∧
    ∀ u : String,
      Event.notifyCall (extractRows env.resultsTable) (some u)
        ∉ (scrape env).2 := by
  have h1 : notifiedSets (scrape env).2 = [([], none)] := by
    cases hso : env.screenshotOk <;> cases hsp : env.screenshotPutOk <;>
      cases hcm : emailConfigMissing env <;> cases hsk : env.sendOk <;>
      simp [scrape, tryBody, catchHandler, sendEmail, saveData, notifiedSets,
        hl, hp, hg, hr, hc, ha, hs, hw, hsv, hso, hsp, hcm, hsk]
  refine ⟨h1, ?_⟩
  intro u hmem
  have h2 := mem_notifiedSets hmem
  rw [h1] at h2
  simp at h2

/-- Witness for C4 at a concrete environment with a failing persist. -/
theorem storage_failure_aborts_data_notification_witness :
    notifiedSets (scrape { goodEnv with savePutOk := false }).2
      = [([], none)] ∧
    Event.notifyCall
        (extractRows { goodEnv with savePutOk := false }.resultsTable)
        (some "https://blob.example/x.json")
      ∉ (scrape { goodEnv with savePutOk := false }).2 := by
  have h := storage_failure_aborts_data_notification
    { goodEnv with savePutOk := false } rfl rfl rfl rfl rfl rfl rfl rfl rfl
  exact ⟨h.1, h.2 "https://blob.example/x.json"⟩

/-- C5 counterexample: a run with the recipient address unset resolves
normally but dispatches no outbound message at all. -/
theorem run_without_config_sends_nothing :
    sentMessages (scrape { goodEnv with RECIPIENT_EMAIL := none }).2 = [] ∧
    resultOk (scrape { goodEnv with RECIPIENT_EMAIL := none }).1 = true :=
  ⟨rfl, rfl⟩

set_option maxHeartbeats 1600000 in
/-- C5 (amended): provided both addresses are configured, the browser and
page come up, and the delivery channel accepts sends, every pipeline run
dispatches exactly one outbound message — whether it found data, found
zero rows, or failed during extraction after page acquisition. -/
theorem exactly_one_send_per_run (env : ScrapeEnv)
    (hl : env.launchOk = true) (hp : env.newPageOk = true)
    (hcm : emailConfigMissing env = false) (hsk : env.sendOk = true) :
    (sentMessages (scrape env).2).length = 1 := by
  cases hg : env.gotoOk <;> cases hr : env.radioEvalOk <;>
    cases hc : env.selectCategoriaOk <;> cases ha : env.selectActividadOk <;>
    cases hs : env.searchOk <;> cases hw : env.resultsSelectorFound <;>
    cases hsv : env.savePutOk <;> cases hso : env.screenshotOk <;>
    cases hsp : env.screenshotPutOk <;>
    simp [scrape, tryBody, catchHandler, sendEmail, saveData, sentMessages,
      hl, hp, hcm, hsk, hg, hr, hc, ha, hs, hw, hsv, hso, hsp]

/-- Witness for C5 (amended) at the all-success environment. -/
theorem exactly_one_send_per_run_witness :
    (sentMessages (scrape goodEnv).2).length = 1 :=
  exactly_one_send_per_run goodEnv rfl rfl (by decide) rfl

/-- C6: a failing diagnostic capture is swallowed at its call site and
never prevents the failure-path notification: whenever an extraction step
fails after page acquisition and the capture throws, the Notifier is
still invoked with the empty set. -/
theorem capture_failure_never_blocks_notification (env : ScrapeEnv)
    (hl : env.launchOk = true) (hp : env.newPageOk = true)
    (hx : extractionStepFails env = true) (_hcf : captureFails env = true) :
    Event.notifyCall [] none ∈ (scrape env).2 := by
  have hbody : ∃ e, (tryBody env).1 = Except.error e := by
    cases hg : env.gotoOk <;> cases hr : env.radioEvalOk <;>
      cases hc : env.selectCategoriaOk <;> cases ha : env.selectActividadOk <;>
      cases hs : env.searchOk <;> cases hw : env.resultsSelectorFound <;>
      simp [extractionStepFails, hg, hr, hc, ha, hs, hw] at hx <;>
      simp [tryBody, hp, hg, hr, hc, ha, hs, hw]
  obtain ⟨e, he⟩ := hbody
  rcases htb : tryBody env with ⟨res, evs⟩
  rw [htb] at he
  simp only at he
  subst he
  have hn : Event.notifyCall [] none ∈ (catchHandler env).2 := by
    cases hso : env.screenshotOk <;> cases hsp : env.screenshotPutOk <;>
      cases hcm : emailConfigMissing env <;> cases hsk : env.sendOk <;>
      simp [catchHandler, sendEmail, hp, hso, hsp, hcm, hsk]
  have hscr : (scrape env).2
      = evs ++ (catchHandler env).2 ++ [Event.browserClosed] := by
    simp [scrape, hl, htb]
  rw [hscr]
  simp [List.mem_append, hn]

/-- Witness for C6: navigation fails and the screenshot throws. -/
theorem capture_failure_never_blocks_notification_witness :
    Event.notifyCall [] none
      ∈ (scrape { goodEnv with gotoOk := false, screenshotOk := false }).2 :=
  capture_failure_never_blocks_notification
    { goodEnv with gotoOk := false, screenshotOk := false }
    rfl rfl (by decide) (by decide)

/-- C8: an extraction error raised during a run is caught at the pipeline
boundary and converted into the failure path — `scrape()` never rejects
with an extraction error — and a scheduler whose first awaited run
resolved executes one run per interval tick regardless of the outcomes of
those runs. -/
theorem extraction_errors_never_reach_scheduler :
    (∀ env : ScrapeEnv, isExtractionFailure (scrape env).1 = false) ∧
    ∀ (envs : Nat → ScrapeEnv) (ticks : Nat),
      resultOk (scrape (envs 0)).1 = true →
      (start envs ticks).length = ticks + 1 := by
  constructor
  · intro env
    by_cases hl : env.launchOk
    · rcases htb : tryBody env with ⟨res, evs⟩
      cases res with
      | ok u => simp [scrape, hl, htb, isExtractionFailure]
      | error e =>
        have hch : isExtractionFailure (catchHandler env).1 = false := by
          by_cases hp : env.newPageOk
          · have hres : (catchHandler env).1 = (sendEmail env [] none).1 := by
              simp [catchHandler, hp]
            rw [hres]
            exact sendEmail_not_extraction env [] none
          · simp [catchHandler, hp, isExtractionFailure]
        simp [scrape, hl, htb, hch]
    · simp [scrape, hl, isExtractionFailure]
  · intro envs ticks h
    cases hres : (scrape (envs 0)).1 with
    | error e => rw [hres] at h; simp [resultOk] at h
    | ok u => simp [start, hres]

/-- Witness for C8: a failing run raises no extraction error and the
scheduler of a resolving first run performs one run per tick. -/
theorem extraction_errors_never_reach_scheduler_witness :
    isExtractionFailure (scrape envGotoFail).1 = false ∧
    (start (fun _ => goodEnv) 3).length = 3 + 1 :=
  ⟨extraction_errors_never_reach_scheduler.1 envGotoFail,
   extraction_errors_never_reach_scheduler.2 (fun _ => goodEnv) 3 (by decide)⟩

/-- C9: every run that opened the browser session closes it exactly once,
as the final event after all other steps of the run. -/
theorem browser_closed_exactly_once (env : ScrapeEnv)
    (hl : env.launchOk = true) :
    (scrape env).2.getLast? = some Event.browserClosed ∧
    closeCount (scrape env).2 = 1 := by
  rcases htb : tryBody env with ⟨res, evs⟩
  have hb : closeCount evs = 0 := by
    have h := closeCount_tryBody env
    rw [htb] at h
    simpa using h
  cases res with
  | ok u =>
    have h2 : (scrape env).2 = evs ++ [Event.browserClosed] := by
      simp [scrape, hl, htb]
    rw [h2]
    refine ⟨?_, ?_⟩
    · rw [List.getLast?_concat]
    · rw [closeCount_append, hb]
      rfl
  | error e =>
    have hc := closeCount_catchHandler env
    have h2 : (scrape env).2
        = evs ++ (catchHandler env).2 ++ [Event.browserClosed] := by
      simp [scrape, hl, htb]
    rw [h2]
    refine ⟨?_, ?_⟩
    · rw [List.getLast?_concat]
    · rw [closeCount_append, closeCount_append, hb, hc]
      rfl

/-- Witness for C9 at the all-success environment. -/
theorem browser_closed_exactly_once_witness :
    (scrape goodEnv).2.getLast? = some Event.browserClosed ∧
    closeCount (scrape goodEnv).2 = 1 :=
  browser_closed_exactly_once goodEnv rfl
